import Mathlib

/-!
Verification of the suparisma client-side synchronized-view engine.

The definitions below are a shallow embedding of the runtime logic generated
by src/src/generators/coreGenerator.ts (the generated hook body is a template
string inside that file; line numbers cited in doc comments refer to that
file).  JavaScript runtime values are modelled by the inductive type Val;
rows are association lists from field names to values (a missing key reads as
undefined, as in JavaScript property access).  The strict-equality operator
of JavaScript is modelled by jsStrictEq; for Date objects, where JavaScript
compares references, the model compares timestamps.  String conversion of a
number is modelled on integers; localeCompare is modelled as code-point
lexicographic comparison.  Array.prototype.sort with a user comparator is
modelled as a deterministic stable insertion sort (jsSort): for comparators
that are consistent this agrees with the ECMAScript specification of sort;
for inconsistent comparators ECMAScript leaves the order
implementation-defined and this model fixes one stable algorithm.
-/

set_option maxHeartbeats 1000000

/-- Sort direction of an orderBy entry. -/
inductive Dir where
  | asc
  | desc
deriving DecidableEq

/-- Model of a JavaScript runtime value as it appears in rows and filters. -/
inductive Val where
  | undef
  | null
  | num (n : Int)
  | str (s : String)
  | date (t : Int)
  | bool (b : Bool)
deriving DecidableEq

/-- A row is an association list from field names to values; the first
binding of a key wins, and a missing key reads as undefined. -/
abbrev Row := List (String × Val)

/-- Property access item[key]: the stored value, or undefined when absent. -/
def getField (r : Row) (k : String) : Val :=
  match r.lookup k with
  | some v => v
  | none => Val.undef

/-- The check a === undefined || a === null from compareValues. -/
def isNullish : Val → Bool
  | Val.undef => true
  | Val.null => true
  | _ => false

/-- JavaScript strict equality on modelled values.  Values of different
runtime types are never strictly equal; null and undefined are distinct.
Date === Date is reference equality in JavaScript; the model compares
timestamps instead. -/
def jsStrictEq : Val → Val → Bool
  | Val.undef, Val.undef => true
  | Val.null, Val.null => true
  | Val.num m, Val.num n => m = n
  | Val.str s, Val.str t => s = t
  | Val.date s, Val.date t => s = t
  | Val.bool a, Val.bool b => a = b
  | _, _ => false

/-- JavaScript truthiness of a modelled value. -/
def jsTruthy : Val → Bool
  | Val.undef => false
  | Val.null => false
  | Val.num n => n ≠ 0
  | Val.str s => s ≠ ""
  | Val.date _ => true
  | Val.bool b => b

/-- String conversion String(v).  Dates stringify to an opaque injective
form in the model (actual JavaScript produces a locale date string). -/
def jsToString : Val → String
  | Val.undef => "undefined"
  | Val.null => "null"
  | Val.num n => toString n
  | Val.str s => s
  | Val.date t => "[Date " ++ toString t ++ "]"
  | Val.bool b => if b then "true" else "false"

/-- Code-point lexicographic three-way comparison on character lists. -/
def charListCmp : List Char → List Char → Int
  | [], [] => 0
  | [], _ :: _ => -1
  | _ :: _, [] => 1
  | a :: as, b :: bs =>
    if a.toNat < b.toNat then -1
    else if b.toNat < a.toNat then 1
    else charListCmp as bs

/-- Model of aStr.localeCompare(bStr): lexicographic by code points. -/
def strCmp (s t : String) : Int := charListCmp s.data t.data

/-- Shallow embedding of compareValues (coreGenerator.ts lines 156-182):
null/undefined first in ascending order and last in descending order, two
numbers numerically, two dates by timestamp, anything else by string
conversion and localeCompare. -/
def compareValues (a b : Val) (direction : Dir) : Int :=
  if isNullish a then (if direction = Dir.asc then -1 else 1)
  else if isNullish b then (if direction = Dir.asc then 1 else -1)
  else
    match a, b with
    | Val.num m, Val.num n => if direction = Dir.asc then m - n else n - m
    | Val.date s, Val.date t => if direction = Dir.asc then s - t else t - s
    | _, _ =>
      if direction = Dir.asc then strCmp (jsToString a) (jsToString b)
      else strCmp (jsToString b) (jsToString a)

theorem charListCmp_neg (xs ys : List Char) :
    charListCmp xs ys = -(charListCmp ys xs) := by
  induction xs generalizing ys with
  | nil => cases ys <;> simp [charListCmp]
  | cons a as ih =>
    cases ys with
    | nil => simp [charListCmp]
    | cons b bs =>
      by_cases h1 : a.toNat < b.toNat
      · have h2 : ¬ b.toNat < a.toNat := by omega
        simp [charListCmp, h1, h2]
      · by_cases h2 : b.toNat < a.toNat
        · simp [charListCmp, h1, h2]
        · simp [charListCmp, h1, h2, ih bs]

theorem strCmp_neg (s t : String) : strCmp s t = -(strCmp t s) :=
  charListCmp_neg s.data t.data

theorem compareValues_neg_of_not_both_null (a b : Val) (d : Dir)
    (h : ¬(isNullish a = true ∧ isNullish b = true)) :
    compareValues a b d = -(compareValues b a d) := by
  cases a <;> cases b <;> simp [isNullish] at h ⊢ <;> cases d <;>
      simp [compareValues, isNullish] <;>
    first
      | omega
      | exact strCmp_neg _ _

/-- C3 (amended): the comparator orders null/undefined first in ascending
order and last in descending order against non-null values, compares two
numbers numerically and two dates by instant, and falls back to
lexicographic string form otherwise; it is antisymmetric for every pair of
values of which at most one is null/undefined.  (The original claim's
antisymmetry for pairs where both values are null/undefined is false, see
the counterexample: the code returns -1 for both argument orders.) -/
theorem compareValues_order_properties :
    (∀ a b : Val, ∀ d : Dir, ¬(isNullish a = true ∧ isNullish b = true) →
      compareValues a b d = -(compareValues b a d))
    ∧ (∀ a b : Val, isNullish a = true → isNullish b = false →
      compareValues a b Dir.asc = -1 ∧ compareValues a b Dir.desc = 1)
    ∧ (∀ m n : Int, compareValues (Val.num m) (Val.num n) Dir.asc = m - n
      ∧ compareValues (Val.num m) (Val.num n) Dir.desc = n - m)
    ∧ (∀ s t : Int, compareValues (Val.date s) (Val.date t) Dir.asc = s - t
      ∧ compareValues (Val.date s) (Val.date t) Dir.desc = t - s)
    ∧ (∀ a b : Val, isNullish a = false → isNullish b = false →
      (∀ m n : Int, ¬(a = Val.num m ∧ b = Val.num n)) →
      (∀ s t : Int, ¬(a = Val.date s ∧ b = Val.date t)) →
      compareValues a b Dir.asc = strCmp (jsToString a) (jsToString b)) := by
  refine ⟨compareValues_neg_of_not_both_null, ?_, ?_, ?_, ?_⟩
  · intro a b ha hb
    constructor <;> simp [compareValues, ha]
  · intro m n
    constructor <;> simp [compareValues, isNullish]
  · intro s t
    constructor <;> simp [compareValues, isNullish]
  · intro a b ha hb hnum hdate
    cases a <;> cases b <;> simp [isNullish] at ha hb <;>
      first
        | exact absurd ⟨rfl, rfl⟩ (hnum _ _)
        | exact absurd ⟨rfl, rfl⟩ (hdate _ _)
        | simp [compareValues, isNullish]

/-- C3 counterexample: when both values are null/undefined the comparator
returns -1 in ascending order for both argument orders, so it is not
antisymmetric (null compares strictly before undefined and undefined
strictly before null). -/
theorem compareValues_both_null_cex :
    compareValues Val.null Val.undef Dir.asc = -1
    ∧ compareValues Val.undef Val.null Dir.asc = -1
    ∧ ¬(compareValues Val.null Val.undef Dir.asc
        = -(compareValues Val.undef Val.null Dir.asc)) := by
  decide

/-- Witness for compareValues_order_properties at concrete inputs. -/
theorem compareValues_order_properties_witness :
    compareValues (Val.num 3) (Val.str "a") Dir.asc
      = -(compareValues (Val.str "a") (Val.num 3) Dir.asc)
    ∧ compareValues Val.null (Val.num 1) Dir.asc = -1
    ∧ compareValues (Val.num 5) (Val.num 2) Dir.asc = 3
    ∧ compareValues (Val.date 7) (Val.date 9) Dir.desc = 2
    ∧ compareValues (Val.bool true) (Val.str "x") Dir.asc
      = strCmp (jsToString (Val.bool true)) (jsToString (Val.str "x")) :=
  ⟨compareValues_order_properties.1 (Val.num 3) (Val.str "a") Dir.asc
      (by decide),
   (compareValues_order_properties.2.1 Val.null (Val.num 1) (by decide)
      (by decide)).1,
   by
     have h := (compareValues_order_properties.2.2.1 5 2).1
     omega,
   by
     have h := (compareValues_order_properties.2.2.2.1 7 9).2
     omega,
   compareValues_order_properties.2.2.2.2 (Val.bool true) (Val.str "x")
      (by decide) (by decide) (fun m n h => Val.noConfusion h.1)
      (fun s t h => Val.noConfusion h.1)⟩

/-- Operator set of an advanced filter field (FilterOperators in
coreGenerator.ts lines 42-65); absent operators are none.  The field for
the not operator is named notOp and the one for the in operator inList
because of Lean keywords. -/
structure Ops where
  equals : Option Val := none
  notOp : Option Val := none
  inList : Option (List Val) := none
  notInList : Option (List Val) := none
  lt : Option Val := none
  lte : Option Val := none
  gt : Option Val := none
  gte : Option Val := none
  contains : Option String := none
  startsWith : Option String := none
  endsWith : Option String := none
deriving DecidableEq

/-- A filter field value is either a plain literal (equality filter) or an
operator object. -/
inductive FilterVal where
  | lit (v : Val)
  | ops (o : Ops)
deriving DecidableEq

/-- A where filter: field name to literal or operator object, implicitly
AND-ed, in object-entry order. -/
abbrev WhereFilter := List (String × FilterVal)

/-- The JavaScript test typeof value === 'object' && value !== null applied
to a filter field value: operator objects are objects, and so are Date
literals; every other literal is primitive (or null, which the test
excludes). -/
def filterValIsObject : FilterVal → Bool
  | FilterVal.ops _ => true
  | FilterVal.lit (Val.date _) => true
  | FilterVal.lit _ => false

/-- One step of the client-side filter loop shared by the INSERT handler
(coreGenerator.ts lines 868-876) and the search result filter (lines
620-632): an object-valued condition is skipped (assumed to match), a
primitive condition must be strictly equal to the row's field. -/
def simpleEntryMatches (r : Row) (p : String × FilterVal) : Bool :=
  if filterValIsObject p.2 then true
  else
    match p.2 with
    | FilterVal.lit v => jsStrictEq (getField r p.1) v
    | FilterVal.ops _ => true

/-- Client-side filter evaluation: all conditions must pass, where
object-valued (operator) conditions are skipped. -/
def simpleFieldsMatch (w : WhereFilter) (r : Row) : Bool :=
  w.all (simpleEntryMatches r)

/-- Modelled from the spec: the intended predicate semantics of a filter
(spec section 4.1), used only to express that a row does or does not match
the active filter in the sense of the specification.  Each operator maps to
one comparison rule; contains/startsWith/endsWith are case-insensitive
substring tests; multiple operators on one field are AND-ed.  Ordering
operators compare numbers numerically, dates by instant and strings
lexicographically; mismatched types do not satisfy an ordering operator. -/
def specValLt : Val → Val → Bool
  | Val.num m, Val.num n => m < n
  | Val.date s, Val.date t => s < t
  | Val.str s, Val.str t => strCmp s t < 0
  | _, _ => false

/-- Modelled from the spec: case-insensitive substring test used by the
contains operator. -/
def strContains (s pat : String) : Bool :=
  (s.splitOn pat).length ≠ 1

/-- Modelled from the spec: evaluation of one operator object against a
row field value. -/
def specOpsMatch (o : Ops) (x : Val) : Bool :=
  (match o.equals with | some v => jsStrictEq x v | none => true)
  && (match o.notOp with | some v => !jsStrictEq x v | none => true)
  && (match o.inList with
      | some vs => vs.any (jsStrictEq x)
      | none => true)
  && (match o.notInList with
      | some vs => !vs.any (jsStrictEq x)
      | none => true)
  && (match o.lt with | some v => specValLt x v | none => true)
  && (match o.lte with
      | some v => specValLt x v || jsStrictEq x v
      | none => true)
  && (match o.gt with | some v => specValLt v x | none => true)
  && (match o.gte with
      | some v => specValLt v x || jsStrictEq x v
      | none => true)
  && (match o.contains with
      | some p => strContains (jsToString x).toLower p.toLower
      | none => true)
  && (match o.startsWith with
      | some p => ((jsToString x).toLower).startsWith p.toLower
      | none => true)
  && (match o.endsWith with
      | some p => ((jsToString x).toLower).endsWith p.toLower
      | none => true)

/-- Modelled from the spec: a row matches a filter when every field
condition holds, literals by equality and operator objects by
specOpsMatch. -/
def specFilterMatches (w : WhereFilter) (r : Row) : Bool :=
  w.all fun p =>
    match p.2 with
    | FilterVal.lit v => jsStrictEq (getField r p.1) v
    | FilterVal.ops o => specOpsMatch o (getField r p.1)

/-- An orderBy option: either a single object (its entries in order) or an
array of such objects. -/
inductive OrderBy where
  | obj (c : List (String × Dir))
  | arr (cs : List (List (String × Dir)))
deriving DecidableEq

/-- The wrap Array.isArray(orderBy) ? orderBy : [orderBy] used by the
realtime handlers and applyOrderBy. -/
def orderClauses : OrderBy → List (List (String × Dir))
  | OrderBy.obj c => [c]
  | OrderBy.arr cs => cs

/-- The (field, direction) pairs visited by the nested for loops of the
realtime sort comparators, in visit order. -/
def orderPairs (ob : OrderBy) : List (String × Dir) :=
  (orderClauses ob).flatten

/-- The multi-criteria comparator built inside the INSERT handler
(coreGenerator.ts lines 906-921): the first criterion whose two field
values are not strictly equal decides via compareValues; all criteria
equal gives 0. -/
def rowCmpPairs (ps : List (String × Dir)) (a b : Row) : Int :=
  match ps with
  | [] => 0
  | (f, d) :: rest =>
    let aValue := getField a f
    let bValue := getField b f
    if jsStrictEq aValue bValue then rowCmpPairs rest a b
    else compareValues aValue bValue d

/-- The default comparator used when no orderBy is set but the model has a
creation timestamp (coreGenerator.ts lines 924-928): compareValues on the
createdAt field, descending, without the strict-equality shortcut. -/
def createdAtCmp (createdAtField : String) (a b : Row) : Int :=
  compareValues (getField a createdAtField) (getField b createdAtField)
    Dir.desc

/-- Stable insertion of an element into a list: the element is placed
before the first existing element that compares strictly greater
(comparator value below zero), hence after every element it ties with. -/
def jsSortInsert (cmp : Row → Row → Int) (x : Row) : List Row → List Row
  | [] => [x]
  | y :: ys =>
    if cmp x y < 0 then x :: y :: ys else y :: jsSortInsert cmp x ys

/-- Model of Array.prototype.sort with a user comparator: deterministic
stable insertion sort processing elements left to right.  For consistent
comparators this agrees with the ECMAScript stable-sort contract;
ECMAScript leaves inconsistent comparators implementation-defined. -/
def jsSort (cmp : Row → Row → Int) (l : List Row) : List Row :=
  l.foldl (fun acc x => jsSortInsert cmp x acc) []

/-- Static configuration baked into one generated hook (the config argument
of createSuparismaHook, coreGenerator.ts lines 373-390). -/
structure HookConfig where
  tableName : String
  hasCreatedAt : Bool
  hasUpdatedAt : Bool
  searchFields : List String := []
  defaultValues : List (String × String) := []
  createdAtField : String := "createdAt"
  updatedAtField : String := "updatedAt"
deriving DecidableEq

/-- The hook options relevant to data handling (where/orderBy/limit/offset
as read through the refs inside the realtime handlers).  The where option
is named whereF because where is a Lean keyword. -/
structure HookOptions where
  whereF : Option WhereFilter := none
  orderBy : Option OrderBy := none
  limit : Option Int := none
  offset : Option Int := none
deriving DecidableEq

/-- A search query (field, value). -/
structure SearchQuery where
  field : String
  value : String
deriving DecidableEq

/-- The observable view state: rows, total count, error, loading, plus the
isSearchingRef flag and the active search queries. -/
structure ViewState where
  rows : List Row
  count : Int := 0
  error : Option String := none
  loading : Bool := false
  isSearching : Bool := false
  searchQueries : List SearchQuery := []
deriving DecidableEq

/-- The duplicate check of the INSERT handler (coreGenerator.ts lines
885-888): some existing item has an id property, the new record has an id
property, and the two ids are strictly equal. -/
def existsById (rows : List Row) (newRecord : Row) : Bool :=
  rows.any fun item =>
    ((item.lookup "id").isSome && (newRecord.lookup "id").isSome)
      && jsStrictEq (getField item "id") (getField newRecord "id")

/-- The re-sort applied after appending the new record: the orderBy
comparator when orderBy is set, else the createdAt-descending default when
the model has a creation timestamp, else no sort (coreGenerator.ts lines
898-929). -/
def sortInsertData (cfg : HookConfig) (opts : HookOptions)
    (l : List Row) : List Row :=
  match opts.orderBy with
  | some ob => jsSort (rowCmpPairs (orderPairs ob)) l
  | none =>
    if cfg.hasCreatedAt then jsSort (createdAtCmp cfg.createdAtField) l
    else l

/-- The truncation if (currentLimit && currentLimit > 0) newData =
newData.slice(0, currentLimit) (coreGenerator.ts lines 932-934). -/
def applyLimit (limit : Option Int) (l : List Row) : List Row :=
  match limit with
  | some n => if 0 < n then l.take n.toNat else l
  | none => l

/-- Result of processing one INSERT push event: the new rows and whether a
deferred total-count refresh was scheduled. -/
structure InsertOutcome where
  rows : List Row
  countRefresh : Bool
deriving DecidableEq

/-- The filter gate of the INSERT handler: when a current where filter is
present the new record must pass the client-side evaluation of its
primitive conditions (coreGenerator.ts lines 863-882). -/
def passesWhere (opts : HookOptions) (newRecord : Row) : Bool :=
  match opts.whereF with
  | some w => simpleFieldsMatch w newRecord
  | none => true

/-- Shallow embedding of the INSERT branch of the realtime event handler
(coreGenerator.ts lines 853-944): skip while searching; skip when a
primitive condition of the current filter mismatches (object-valued
conditions are assumed to match); skip when a row with the same id already
exists; otherwise append, re-sort, truncate to the limit, and schedule a
total-count refresh. -/
def processInsert (cfg : HookConfig) (opts : HookOptions) (st : ViewState)
    (newRecord : Row) : InsertOutcome :=
  if st.isSearching then ⟨st.rows, false⟩
  else if !passesWhere opts newRecord then ⟨st.rows, false⟩
  else if existsById st.rows newRecord then ⟨st.rows, false⟩
  else
    ⟨applyLimit opts.limit
      (sortInsertData cfg opts (st.rows ++ [newRecord])), true⟩

/-- Rows of the C2 scenario: table Thing ordered by someNumber descending
with limit 2. -/
def thingRow10 : Row := [("id", Val.str "a"), ("someNumber", Val.num 10)]

def thingRow5 : Row := [("id", Val.str "b"), ("someNumber", Val.num 5)]

def thingRow8 : Row := [("id", Val.str "c"), ("someNumber", Val.num 8)]

def thingCfg : HookConfig :=
  { tableName := "Thing", hasCreatedAt := false, hasUpdatedAt := false }

def thingOpts : HookOptions :=
  { orderBy := some (OrderBy.obj [("someNumber", Dir.desc)]),
    limit := some 2 }

/-- C2: with limit 2, order someNumber descending and rows [10, 5], a push
insert of someNumber 8 yields rows [10, 8] (the row with 5 is truncated
out by the limit) and schedules a total-count refresh. -/
theorem insert_limit_truncation_scenario :
    processInsert thingCfg thingOpts { rows := [thingRow10, thingRow5] }
      thingRow8
      = ⟨[thingRow10, thingRow8], true⟩ := by
  decide

/-- C1 (amended): an insert event whose new row fails a primitive
(simple-equality) condition of the active filter leaves rows unchanged;
operator-based (object-valued) conditions are not evaluated client-side
and are assumed to match, so only primitive mismatches are filtered out
here (the counterexample shows an operator-only mismatch slipping in). -/
theorem insert_simple_filter_mismatch_ignored
    (cfg : HookConfig) (opts : HookOptions) (st : ViewState) (r : Row)
    (w : WhereFilter) (k : String) (v : Val)
    (hw : opts.whereF = some w)
    (hmem : (k, FilterVal.lit v) ∈ w)
    (hobj : filterValIsObject (FilterVal.lit v) = false)
    (hne : jsStrictEq (getField r k) v = false) :
    (processInsert cfg opts st r).rows = st.rows := by
  have hentry : simpleEntryMatches r (k, FilterVal.lit v) = false := by
    simp [simpleEntryMatches, hobj, hne]
  have hmatch : simpleFieldsMatch w r = false := by
    unfold simpleFieldsMatch
    cases hall : w.all (simpleEntryMatches r) with
    | false => rfl
    | true =>
      have h2 := List.all_eq_true.mp hall (k, FilterVal.lit v) hmem
      rw [hentry] at h2
      cases h2
  by_cases hs : st.isSearching
  · simp [processInsert, hs]
  · simp [processInsert, passesWhere, hs, hw, hmatch]

def c1Where : WhereFilter :=
  [("age", FilterVal.ops { gt := some (Val.num 21) })]

def c1Opts : HookOptions := { whereF := some c1Where }

def c1Row : Row := [("id", Val.num 1), ("age", Val.num 10)]

def c1Cfg : HookConfig :=
  { tableName := "t", hasCreatedAt := false, hasUpdatedAt := false }

/-- C1 counterexample: under the active filter age gt 21 (an operator
condition), a pushed row with age 10 does not match the filter in the
specification's sense, yet the INSERT handler appends it to rows, because
object-valued filter conditions are skipped client-side. -/
theorem insert_operator_filter_cex :
    specFilterMatches c1Where c1Row = false
    ∧ (processInsert c1Cfg c1Opts { rows := [] } c1Row).rows = [c1Row] := by
  decide

def c1wWhere : WhereFilter := [("status", FilterVal.lit (Val.str "on"))]

def c1wOpts : HookOptions := { whereF := some c1wWhere }

def c1wRow : Row := [("id", Val.num 9), ("status", Val.str "off")]

def c1wSt : ViewState := { rows := [[("id", Val.num 7)]] }

/-- Witness for insert_simple_filter_mismatch_ignored at concrete input. -/
theorem insert_simple_filter_mismatch_ignored_witness :
    c1wOpts.whereF = some c1wWhere
    ∧ ("status", FilterVal.lit (Val.str "on")) ∈ c1wWhere
    ∧ jsStrictEq (getField c1wRow "status") (Val.str "on") = false
    ∧ (processInsert c1Cfg c1wOpts c1wSt c1wRow).rows = c1wSt.rows :=
  ⟨by decide, by decide, by decide,
   insert_simple_filter_mismatch_ignored c1Cfg c1wOpts c1wSt c1wRow
     c1wWhere "status" (Val.str "on") (by decide) (by decide) (by decide)
     (by decide)⟩

/-- C4 (amended): delivering the same insert event twice yields the same
rows as delivering it once whenever the event is ignored while searching,
or its row fails a primitive condition of the active filter, or a row with
its identifier is still present after the first delivery (the second
delivery is then ignored by the duplicate check).  When the limit
truncates the inserted row out of rows, the second delivery re-appends and
re-sorts, which can reorder rows when the order comparator is inconsistent
on the stored field values (see the counterexample). -/
theorem insert_idempotent_when_retained
    (cfg : HookConfig) (opts : HookOptions) (st : ViewState) (r : Row)
    (h : st.isSearching = true
      ∨ (∃ w, opts.whereF = some w ∧ simpleFieldsMatch w r = false)
      ∨ existsById (processInsert cfg opts st r).rows r = true) :
    (processInsert cfg opts
        { st with rows := (processInsert cfg opts st r).rows } r).rows
      = (processInsert cfg opts st r).rows := by
  by_cases hs : st.isSearching
  · simp [processInsert, hs]
  · rcases h with h | ⟨w, hw, hm⟩ | hex
    · exact absurd h hs
    · simp [processInsert, passesWhere, hs, hw, hm]
    · cases hp : passesWhere opts r with
      | false => simp [processInsert, hs, hp]
      | true =>
        cases he : existsById st.rows r with
        | true => simp [processInsert, hs, hp, he]
        | false =>
          simp only [processInsert, hs, hp, he, Bool.not_true,
            Bool.not_false, if_false, if_true, Bool.false_eq_true,
            if_neg, ite_false, ite_true] at hex ⊢
          simp [hex]

def c4RowU : Row := [("id", Val.num 1), ("v", Val.num 2)]

def c4RowB : Row := [("id", Val.num 2), ("v", Val.num 10)]

def c4RowA : Row := [("id", Val.num 3), ("v", Val.str "11")]

def c4RowR : Row := [("id", Val.num 4), ("v", Val.num 20)]

def c4Cfg : HookConfig :=
  { tableName := "t", hasCreatedAt := false, hasUpdatedAt := false }

def c4Opts : HookOptions :=
  { orderBy := some (OrderBy.obj [("v", Dir.asc)]), limit := some 3 }

def c4St : ViewState := { rows := [c4RowU, c4RowB, c4RowA] }

/-- C4 counterexample: with limit 3, ascending order on a field holding
the mixed values 2, 10, "11" and an insert of 20, the inserted row is
truncated out by the limit on the first delivery, and the second delivery
of the same event re-sorts rows into a different order: once gives rows
with field values ["11", 2, 10] and twice gives [10, "11", 2].  The string
"11" makes the comparator inconsistent (compareValues falls back to string
comparison against it), so re-sorting the truncated list is not a no-op. -/
theorem insert_idempotence_cex :
    (processInsert c4Cfg c4Opts c4St c4RowR).rows = [c4RowA, c4RowU, c4RowB]
    ∧ (processInsert c4Cfg c4Opts
        { c4St with rows := (processInsert c4Cfg c4Opts c4St c4RowR).rows }
        c4RowR).rows
      = [c4RowB, c4RowA, c4RowU]
    ∧ ¬((processInsert c4Cfg c4Opts
        { c4St with rows := (processInsert c4Cfg c4Opts c4St c4RowR).rows }
        c4RowR).rows
      = (processInsert c4Cfg c4Opts c4St c4RowR).rows) := by
  decide

def c4wSt : ViewState := { rows := [] }

/-- Witness for insert_idempotent_when_retained at concrete input: the
inserted row is retained after the first delivery, so the second delivery
is ignored. -/
theorem insert_idempotent_when_retained_witness :
    existsById (processInsert c4Cfg c4Opts c4wSt c4RowR).rows c4RowR = true
    ∧ (processInsert c4Cfg c4Opts
        { c4wSt with rows := (processInsert c4Cfg c4Opts c4wSt c4RowR).rows }
        c4RowR).rows
      = (processInsert c4Cfg c4Opts c4wSt c4RowR).rows :=
  ⟨by decide,
   insert_idempotent_when_retained c4Cfg c4Opts c4wSt c4RowR
     (Or.inr (Or.inr (by decide)))⟩

/-- Parameters of a findMany call (coreGenerator.ts lines 703-708). -/
structure FindManyParams where
  whereF : Option WhereFilter := none
  orderBy : Option OrderBy := none
  take : Option Int := none
  skip : Option Int := none
deriving DecidableEq

/-- The query shape handed to the gateway by findMany: filter, order
entries as (field, ascending), an optional limit, and an optional
inclusive range. -/
structure QuerySpec where
  filter : Option WhereFilter := none
  order : List (String × Bool) := []
  limitTake : Option Int := none
  range : Option (Int × Int) := none
deriving DecidableEq

/-- The order entries appended by applyOrderBy (coreGenerator.ts lines
328-359) for a present orderBy value: every clause's entries in order,
ascending when the direction is asc. -/
def orderFromOrderBy (ob : OrderBy) : List (String × Bool) :=
  (orderClauses ob).flatten.map fun pr => (pr.1, pr.2 = Dir.asc)

/-- Shallow embedding of the query construction inside findMany
(coreGenerator.ts lines 713-737): filter conditions, orderBy or the
createdAt-descending default, a limit only for a truthy take, and a range
only for a supplied nonnegative skip, spanning take-or-10 rows. -/
def buildFindManyQuery (cfg : HookConfig) (p : FindManyParams) : QuerySpec :=
  { filter := p.whereF
    order :=
      match p.orderBy with
      | some ob => orderFromOrderBy ob
      | none =>
        if cfg.hasCreatedAt then [(cfg.createdAtField, false)] else []
    limitTake :=
      match p.take with
      | some t => if t ≠ 0 then some t else none
      | none => none
    range :=
      match p.skip with
      | some s =>
        if 0 ≤ s then
          some (s, s + (match p.take with
                        | some t => if t ≠ 0 then t else 10
                        | none => 10) - 1)
        else none
      | none => none }

/-- Gateway semantics of an inclusive range request over a table snapshot,
as specified for the consumed select interface: the slice from the lower
to the upper bound inclusive. -/
def applyRangeModel (db : List Row) : Option (Int × Int) → List Row
  | none => db
  | some (lo, hi) => (db.drop lo.toNat).take (hi - lo + 1).toNat

/-- Result of a public operation: data or an error (the ModelResult shape
of coreGenerator.ts lines 118-124). -/
inductive MRes (α : Type) where
  | ok (d : α)
  | err (e : String)
deriving DecidableEq

/-- Outcome of one findMany call: the updated view state, the returned
result, and whether a deferred total-count refresh was scheduled. -/
structure FindManyOutcome where
  state : ViewState
  result : MRes (List Row)
  countRefreshScheduled : Bool
deriving DecidableEq

/-- Shallow embedding of findMany (coreGenerator.ts lines 703-764): set
loading and clear error, query the gateway; on failure set error, keep
rows and count, and return the error; on success outside search replace
rows and schedule a count refresh exactly when the call's where filter
differs from the hook's configured where option (the JSON.stringify
comparison on line 750, modelled as structural equality); during search
the fetched rows are discarded. -/
def findManyModel (cfg : HookConfig) (opts : HookOptions)
    (gw : QuerySpec → Except String (List Row)) (st : ViewState)
    (p : FindManyParams) : FindManyOutcome :=
  let st1 : ViewState := { st with loading := true, error := none }
  match gw (buildFindManyQuery cfg p) with
  | Except.error e =>
    { state := { st1 with error := some e, loading := false },
      result := MRes.err e, countRefreshScheduled := false }
  | Except.ok fetched =>
    if st1.isSearching then
      { state := { st1 with loading := false },
        result := MRes.ok fetched, countRefreshScheduled := false }
    else
      { state := { st1 with rows := fetched, loading := false },
        result := MRes.ok fetched,
        countRefreshScheduled := decide (p.whereF ≠ opts.whereF) }

/-- Shallow embedding of fetchTotalCount (coreGenerator.ts lines 463-483):
skipped during search, counts with the hook's configured where filter, and
leaves the count unchanged on a count error. -/
def fetchTotalCountModel (opts : HookOptions)
    (gwCount : Option WhereFilter → Except String Int)
    (st : ViewState) : ViewState :=
  if st.isSearching then st
  else
    match gwCount opts.whereF with
    | Except.ok n => { st with count := n }
    | Except.error _ => st

/-- C5: a failing gateway fetch in findMany sets error to the failure,
leaves the previous rows and displayed total count unchanged, ends with
loading false, and returns the error in the result instead of throwing. -/
theorem findMany_failure_preserves_rows
    (cfg : HookConfig) (opts : HookOptions)
    (gw : QuerySpec → Except String (List Row)) (st : ViewState)
    (p : FindManyParams) (e : String)
    (hgw : gw (buildFindManyQuery cfg p) = Except.error e) :
    (findManyModel cfg opts gw st p).state.rows = st.rows
    ∧ (findManyModel cfg opts gw st p).state.count = st.count
    ∧ (findManyModel cfg opts gw st p).state.error = some e
    ∧ (findManyModel cfg opts gw st p).state.loading = false
    ∧ (findManyModel cfg opts gw st p).result = MRes.err e := by
  simp [findManyModel, hgw]

def c5St : ViewState := { rows := [[("id", Val.num 1)]], count := 7 }

def c5Gw : QuerySpec → Except String (List Row) :=
  fun _ => Except.error "boom"

/-- Witness for findMany_failure_preserves_rows at concrete input. -/
theorem findMany_failure_preserves_rows_witness :
    c5Gw (buildFindManyQuery c1Cfg {}) = Except.error "boom"
    ∧ ((findManyModel c1Cfg {} c5Gw c5St {}).state.rows = c5St.rows
      ∧ (findManyModel c1Cfg {} c5Gw c5St {}).state.count = c5St.count
      ∧ (findManyModel c1Cfg {} c5Gw c5St {}).state.error = some "boom"
      ∧ (findManyModel c1Cfg {} c5Gw c5St {}).state.loading = false
      ∧ (findManyModel c1Cfg {} c5Gw c5St {}).result = MRes.err "boom") :=
  ⟨rfl, findMany_failure_preserves_rows c1Cfg {} c5Gw c5St {} "boom" rfl⟩

def c6WhereA : Option WhereFilter := some [("x", FilterVal.lit (Val.num 1))]

def c6WhereB : Option WhereFilter := some [("x", FilterVal.lit (Val.num 2))]

def c6Cfg : HookConfig :=
  { tableName := "t", hasCreatedAt := false, hasUpdatedAt := false }

def c6Opts : HookOptions := { whereF := c6WhereB }

def c6Gw : QuerySpec → Except String (List Row) := fun _ => Except.ok []

def c6Call1 : FindManyOutcome :=
  findManyModel c6Cfg c6Opts c6Gw { rows := [] } { whereF := c6WhereA }

def c6Call2 : FindManyOutcome :=
  findManyModel c6Cfg c6Opts c6Gw c6Call1.state { whereF := c6WhereB }

/-- C6 counterexample: the hook is configured with filter B.  A first
successful findMany call uses filter A, so A is the filter of the last
successful fetch.  A second successful findMany call then uses filter B;
its filter differs from the filter of the last successful fetch (B is not
A), yet no total-count refresh is scheduled, because the code compares the
call's filter with the hook's configured where option rather than with the
filter of the last successful fetch. -/
theorem findMany_count_refresh_cex :
    c6Call1.result = MRes.ok []
    ∧ c6Call1.countRefreshScheduled = true
    ∧ ¬(c6WhereB = c6WhereA)
    ∧ c6Call2.result = MRes.ok []
    ∧ c6Call2.countRefreshScheduled = false := by
  decide

/-- C6 (amended): for a successful findMany call a total-count refresh is
scheduled exactly when search is inactive and the call's where filter
differs from the hook's configured where option (not from the filter of
the last successful fetch), and the deferred refresh sets the count to the
gateway count of the hook's configured filter (not of the call's
filter). -/
theorem findMany_count_refresh_condition
    (cfg : HookConfig) (opts : HookOptions)
    (gw : QuerySpec → Except String (List Row))
    (gwCount : Option WhereFilter → Except String Int)
    (st : ViewState) (p : FindManyParams) (fetched : List Row)
    (hgw : gw (buildFindManyQuery cfg p) = Except.ok fetched) :
    ((findManyModel cfg opts gw st p).countRefreshScheduled = true
      ↔ (st.isSearching = false ∧ p.whereF ≠ opts.whereF))
    ∧ (∀ st2 : ViewState, ∀ n : Int, st2.isSearching = false →
        gwCount opts.whereF = Except.ok n →
        (fetchTotalCountModel opts gwCount st2).count = n) := by
  constructor
  · by_cases hs : st.isSearching <;> simp [findManyModel, hgw, hs]
  · intro st2 n h2 hc
    simp [fetchTotalCountModel, h2, hc]

def c6wSt : ViewState := { rows := [] }

def c6wCount : Option WhereFilter → Except String Int := fun _ => Except.ok 5

/-- Witness for findMany_count_refresh_condition at concrete input. -/
theorem findMany_count_refresh_condition_witness :
    c6Gw (buildFindManyQuery c6Cfg { whereF := c6WhereA }) = Except.ok []
    ∧ ((findManyModel c6Cfg c6Opts c6Gw c6wSt
          { whereF := c6WhereA }).countRefreshScheduled = true
        ↔ (c6wSt.isSearching = false ∧ c6WhereA ≠ c6Opts.whereF))
    ∧ (fetchTotalCountModel c6Opts c6wCount c6wSt).count = 5 :=
  ⟨rfl,
   (findMany_count_refresh_condition c6Cfg c6Opts c6Gw c6wCount c6wSt
      { whereF := c6WhereA } [] rfl).1,
   (findMany_count_refresh_condition c6Cfg c6Opts c6Gw c6wCount c6wSt
      { whereF := c6WhereA } [] rfl).2 c6wSt 5 rfl rfl⟩

/-- C10: a findMany call that supplies a nonnegative skip but no take asks
the gateway for the inclusive range [skip, skip + 10 - 1], so at most 10
rows come back even though the caller specified no limit. -/
theorem findMany_skip_without_take_caps_ten
    (cfg : HookConfig) (p : FindManyParams) (s : Int)
    (ht : p.take = none) (hs : p.skip = some s) (h0 : 0 ≤ s) :
    (buildFindManyQuery cfg p).range = some (s, s + 10 - 1)
    ∧ ∀ db : List Row,
        (applyRangeModel db (some (s, s + 10 - 1))).length ≤ 10 := by
  constructor
  · simp [buildFindManyQuery, ht, hs, h0]
  · intro db
    have h1 : s + 10 - 1 - s + 1 = (10 : Int) := by omega
    simp only [applyRangeModel, h1]
    have h2 : ((10 : Int)).toNat = 10 := rfl
    rw [h2]
    simp [List.length_take]

def c10P : FindManyParams := { skip := some 3 }

def c10Db : List Row := [[], [], [], [], [], [], [], [], [], [], [], []]

/-- Witness for findMany_skip_without_take_caps_ten at concrete input. -/
theorem findMany_skip_without_take_caps_ten_witness :
    c10P.take = none ∧ c10P.skip = some 3 ∧ (0 : Int) ≤ 3
    ∧ (buildFindManyQuery c6Cfg c10P).range = some (3, 3 + 10 - 1)
    ∧ (applyRangeModel c10Db (some (3, 3 + 10 - 1))).length ≤ 10 :=
  ⟨rfl, rfl, by decide,
   (findMany_skip_without_take_caps_ten c6Cfg c10P 3 rfl rfl
      (by decide)).1,
   (findMany_skip_without_take_caps_ten c6Cfg c10P 3 rfl rfl
      (by decide)).2 c10Db⟩

/-- Whitespace test for the trim model (space, tab, newline, carriage
return). -/
def isWsChar (c : Char) : Bool :=
  c.toNat = 32 || c.toNat = 9 || c.toNat = 10 || c.toNat = 13

/-- Model of String.prototype.trim: strip whitespace from both ends. -/
def jsTrim (s : String) : String :=
  String.mk (((s.data.dropWhile isWsChar).reverse.dropWhile
    isWsChar).reverse)

/-- The ?? '' coalescing applied to row field values inside the search
result comparator (coreGenerator.ts lines 644-645). -/
def coalesceEmpty (v : Val) : Val :=
  if isNullish v then Val.str "" else v

/-- JavaScript ToNumber on modelled values, used by the abstract relational
comparison; none models NaN.  String parsing is modelled for integer
literals (the trimmed empty string converts to 0). -/
def jsTgetNumber : Val → Option Int
  | Val.num n => some n
  | Val.bool b => some (if b then 1 else 0)
  | Val.date t => some t
  | Val.str s =>
    if jsTrim s = "" then some 0 else (jsTrim s).toInt?
  | Val.undef => none
  | Val.null => some 0

/-- JavaScript abstract relational comparison a < b on modelled values:
two strings compare lexicographically, anything else numerically after
ToNumber, and any comparison involving NaN is false. -/
def jsLess (a b : Val) : Bool :=
  match a, b with
  | Val.str s, Val.str t => charListCmp s.data t.data < 0
  | _, _ =>
    match jsTgetNumber a, jsTgetNumber b with
    | some m, some n => m < n
    | _, _ => false

/-- The comparator the search path builds from the first orderBy entry
(coreGenerator.ts lines 642-652), using generic relational comparison on
the coalesced field values. -/
def searchCmp (f : String) (d : Dir) (a b : Row) : Int :=
  let aValue := coalesceEmpty (getField a f)
  let bValue := coalesceEmpty (getField b f)
  match d with
  | Dir.asc =>
    if jsLess aValue bValue then -1
    else if jsLess bValue aValue then 1 else 0
  | Dir.desc =>
    if jsLess bValue aValue then -1
    else if jsLess aValue bValue then 1 else 0

/-- Insertion into the allResults object keyed by String(item.id): an
existing key keeps its position and gets the new value, a new key is
appended (JavaScript object insertion order). -/
def dedupInsert (acc : List (String × Row)) (k : String) (v : Row) :
    List (String × Row) :=
  if acc.any (fun p => p.1 = k) then
    acc.map (fun p => if p.1 = k then (k, v) else p)
  else acc ++ [(k, v)]

/-- The union-merge of the per-query search results (coreGenerator.ts
lines 593-616): errored results are skipped, items without a truthy id are
dropped, and duplicates by id keep the most recently examined version. -/
def mergeSearchResults (raw : List (Except String (List Row))) : List Row :=
  (raw.foldl
    (fun acc res =>
      match res with
      | Except.error _ => acc
      | Except.ok items =>
        items.foldl
          (fun acc2 item =>
            if jsTruthy (getField item "id") then
              dedupInsert acc2 (jsToString (getField item "id")) item
            else acc2)
          acc)
    []).map Prod.snd

/-- The client-side where filtering of merged search results
(coreGenerator.ts lines 619-633), skipping object-valued conditions. -/
def searchFiltered (whereF : Option WhereFilter)
    (raw : List (Except String (List Row))) : List Row :=
  match whereF with
  | some w => (mergeSearchResults raw).filter (simpleFieldsMatch w)
  | none => mergeSearchResults raw

/-- The ordering step of the search path (coreGenerator.ts lines 639-654):
only the first entry of the orderBy object is honoured; an orderBy without
entries leaves the merged order. -/
def searchOrdered (whereF : Option WhereFilter)
    (searchOrder : Option (List (String × Dir)))
    (raw : List (Except String (List Row))) : List Row :=
  match searchOrder with
  | some [] => searchFiltered whereF raw
  | some ((f, d) :: _) => jsSort (searchCmp f d) (searchFiltered whereF raw)
  | none => searchFiltered whereF raw

/-- Outcome of one debounced search execution body: the rows placed in
data and the count placed in totalCount. -/
structure SearchOutcome where
  data : List Row
  count : Int
deriving DecidableEq

/-- Shallow embedding of the search execution body (coreGenerator.ts lines
577-673): merge and deduplicate the per-query results, filter client-side,
set the count to the pre-pagination result size, order by the first
orderBy entry, then slice(0, limit) followed by slice(offset). -/
def searchApply (whereF : Option WhereFilter)
    (searchOrder : Option (List (String × Dir)))
    (limit offset : Option Int)
    (raw : List (Except String (List Row))) : SearchOutcome :=
  let ordered := searchOrdered whereF searchOrder raw
  let afterLimit :=
    match limit with
    | some l => if 0 < l then ordered.take l.toNat else ordered
    | none => ordered
  let paginated :=
    match offset with
    | some o => if 0 < o then afterLimit.drop o.toNat else afterLimit
    | none => afterLimit
  { data := paginated,
    count := ((searchFiltered whereF raw).length : Int) }

theorem jsSortInsert_length (cmp : Row → Row → Int) (x : Row)
    (l : List Row) : (jsSortInsert cmp x l).length = l.length + 1 := by
  induction l with
  | nil => simp [jsSortInsert]
  | cons y ys ih =>
    by_cases h : cmp x y < 0 <;> simp [jsSortInsert, h, ih]

theorem jsSort_foldl_length (cmp : Row → Row → Int) (l : List Row)
    (acc : List Row) :
    (l.foldl (fun a x => jsSortInsert cmp x a) acc).length
      = acc.length + l.length := by
  induction l generalizing acc with
  | nil => simp
  | cons y ys ih =>
    simp [List.foldl, ih, jsSortInsert_length]
    omega

theorem jsSort_length (cmp : Row → Row → Int) (l : List Row) :
    (jsSort cmp l).length = l.length := by
  simp [jsSort, jsSort_foldl_length]

theorem searchOrdered_length (whereF : Option WhereFilter)
    (searchOrder : Option (List (String × Dir)))
    (raw : List (Except String (List Row))) :
    (searchOrdered whereF searchOrder raw).length
      = (searchFiltered whereF raw).length := by
  match searchOrder with
  | none => rfl
  | some [] => rfl
  | some ((f, d) :: rest) => simp [searchOrdered, jsSort_length]

/-- C7 (amended): a search execution with limit L greater than 0 and
offset o greater than 0 sets data to the first L elements of the merged
ordered result list with the first o of those removed (slice(0, L)
followed by slice(o), i.e. take then drop, not the window R[o .. o+L)),
and sets totalCount to the pre-pagination size of the merged result
list. -/
theorem search_pagination_take_then_drop
    (whereF : Option WhereFilter)
    (searchOrder : Option (List (String × Dir)))
    (raw : List (Except String (List Row))) (L o : Int)
    (hL : 0 < L) (hO : 0 < o) :
    (searchApply whereF searchOrder (some L) (some o) raw).data
      = ((searchOrdered whereF searchOrder raw).take L.toNat).drop o.toNat
    ∧ (searchApply whereF searchOrder (some L) (some o) raw).count
      = ((searchOrdered whereF searchOrder raw).length : Int) := by
  constructor
  · simp [searchApply, hL, hO]
  · simp [searchApply, searchOrdered_length]

def c7R1 : Row := [("id", Val.num 1)]

def c7R2 : Row := [("id", Val.num 2)]

def c7R3 : Row := [("id", Val.num 3)]

def c7R4 : Row := [("id", Val.num 4)]

def c7Raw : List (Except String (List Row)) :=
  [Except.ok [c7R1, c7R2, c7R3, c7R4]]

/-- C7 counterexample: with merged result list [r1, r2, r3, r4], offset 1
and limit 2, the specification's window R[1 .. 3) is [r2, r3], but the
code computes slice(0, 2) then slice(1) and sets data to [r2] only.  The
pre-pagination count of 4 is reported as claimed. -/
theorem search_pagination_cex :
    (searchApply none none (some 2) (some 1) c7Raw).data = [c7R2]
    ∧ ((searchOrdered none none c7Raw).drop 1).take 2 = [c7R2, c7R3]
    ∧ ¬((searchApply none none (some 2) (some 1) c7Raw).data
        = ((searchOrdered none none c7Raw).drop 1).take 2)
    ∧ (searchApply none none (some 2) (some 1) c7Raw).count = 4 := by
  decide

/-- Witness for search_pagination_take_then_drop at concrete input. -/
theorem search_pagination_take_then_drop_witness :
    (0 : Int) < 2 ∧ (0 : Int) < 1
    ∧ (searchApply none none (some 2) (some 1) c7Raw).data
      = ((searchOrdered none none c7Raw).take (2 : Int).toNat).drop
          (1 : Int).toNat
    ∧ (searchApply none none (some 2) (some 1) c7Raw).count
      = ((searchOrdered none none c7Raw).length : Int) :=
  ⟨by decide, by decide,
   (search_pagination_take_then_drop none none c7Raw 2 1 (by decide)
      (by decide)).1,
   (search_pagination_take_then_drop none none c7Raw 2 1 (by decide)
      (by decide)).2⟩

/-- State of the search debounce machinery: the active queries, the
pending not-yet-fired timer (delay in milliseconds and the query set it
will execute), the log of performed search executions (each recorded with
the query set it used), and the loading/searching flags. -/
structure DebounceState where
  queries : List SearchQuery := []
  pending : Option (Nat × List SearchQuery) := none
  executed : List (List SearchQuery) := []
  searchLoading : Bool := false
  isSearching : Bool := false
deriving DecidableEq

/-- The synchronous part of executeSearch (coreGenerator.ts lines
562-577): clear any pending timer, return when there are no searchable
fields or no queries, otherwise set the loading and searching flags and
schedule the search body on a fresh 300 ms timer. -/
def executeSearchSync (searchFields : List String)
    (qs : List SearchQuery) (s : DebounceState) : DebounceState :=
  if searchFields.isEmpty || qs.isEmpty then { s with pending := none }
  else
    { s with
      pending := some (300, qs)
      searchLoading := true
      isSearching := true }

/-- The query-set update of addQuery: replace an existing query for the
same field, otherwise append (coreGenerator.ts lines 521-526). -/
def mergeQuery (q : SearchQuery) (qs : List SearchQuery) :
    List SearchQuery :=
  if qs.any (fun p => p.field = q.field) then
    qs.map (fun p => if p.field = q.field then q else p)
  else qs ++ [q]

/-- Shallow embedding of search.addQuery (coreGenerator.ts lines 515-533):
reject fields outside the searchable set and values that trim to empty;
otherwise replace an existing query for the same field or append, and run
executeSearch on the updated query set. -/
def addQueryStep (searchFields : List String) (q : SearchQuery)
    (s : DebounceState) : DebounceState :=
  if !(searchFields.contains q.field) || jsTrim q.value == "" then s
  else
    { executeSearchSync searchFields (mergeQuery q s.queries) s with
      queries := mergeQuery q s.queries }

/-- Elapse of the debounce window with no further mutation: the pending
timer fires and the search body executes with the query set captured at
scheduling time. -/
def fireTimer (s : DebounceState) : DebounceState :=
  match s.pending with
  | none => s
  | some (_, qs) =>
    { s with
      pending := none
      executed := s.executed ++ [qs]
      searchLoading := false }

theorem mergeQuery_isEmpty_false (q : SearchQuery)
    (qs : List SearchQuery) : (mergeQuery q qs).isEmpty = false := by
  unfold mergeQuery
  cases hx : qs.any (fun p => p.field = q.field) with
  | true =>
    cases qs with
    | nil => simp at hx
    | cons a l => simp [hx]
  | false => simp [hx]

theorem addQueryStep_shape (searchFields : List String) (q : SearchQuery)
    (s : DebounceState) (hf : searchFields.contains q.field = true)
    (hv : (jsTrim q.value == "") = false) :
    addQueryStep searchFields q s
      = { queries := mergeQuery q s.queries,
          pending := some (300, mergeQuery q s.queries),
          executed := s.executed,
          searchLoading := true,
          isSearching := true } := by
  have hne : searchFields.isEmpty = false := by
    cases searchFields with
    | nil => simp [List.contains] at hf
    | cons a l => rfl
  unfold addQueryStep executeSearchSync
  rw [hf, hv]
  rw [if_neg (show ¬((!true || false) = true) by decide)]
  rw [hne, mergeQuery_isEmpty_false]
  rw [if_neg (show ¬((false || false) = true) by decide)]

/-- C8: three valid addQuery calls inside the debounce window (no timer
firing between them) schedule and reschedule a single pending 300 ms
execution: no search body has run before the window elapses, the pending
timer holds the final query set, and when the window elapses exactly one
search execution is performed, using the final query set obtained by
merging the three queries in order. -/
theorem debounce_three_adds_one_execution
    (sf : List String) (q1 q2 q3 : SearchQuery)
    (hf1 : sf.contains q1.field = true)
    (hv1 : (jsTrim q1.value == "") = false)
    (hf2 : sf.contains q2.field = true)
    (hv2 : (jsTrim q2.value == "") = false)
    (hf3 : sf.contains q3.field = true)
    (hv3 : (jsTrim q3.value == "") = false) :
    (addQueryStep sf q3 (addQueryStep sf q2
        (addQueryStep sf q1 {}))).executed = []
    ∧ (addQueryStep sf q3 (addQueryStep sf q2
        (addQueryStep sf q1 {}))).pending
      = some (300, (addQueryStep sf q3 (addQueryStep sf q2
          (addQueryStep sf q1 {}))).queries)
    ∧ (fireTimer (addQueryStep sf q3 (addQueryStep sf q2
        (addQueryStep sf q1 {})))).executed
      = [(addQueryStep sf q3 (addQueryStep sf q2
          (addQueryStep sf q1 {}))).queries]
    ∧ (addQueryStep sf q3 (addQueryStep sf q2
        (addQueryStep sf q1 {}))).queries
      = mergeQuery q3 (mergeQuery q2 (mergeQuery q1 [])) := by
  have h1 := addQueryStep_shape sf q1 {} hf1 hv1
  have h2 := addQueryStep_shape sf q2 (addQueryStep sf q1 {}) hf2 hv2
  have h3 := addQueryStep_shape sf q3
    (addQueryStep sf q2 (addQueryStep sf q1 {})) hf3 hv3
  rw [h3, h2, h1]
  simp [fireTimer]

def c8Q1 : SearchQuery := { field := "name", value := "j" }

def c8Q2 : SearchQuery := { field := "name", value := "jo" }

def c8Q3 : SearchQuery := { field := "name", value := "john" }

/-- Witness for debounce_three_adds_one_execution at concrete input. -/
theorem debounce_three_adds_one_execution_witness :
    (["name"].contains c8Q1.field = true
      ∧ (jsTrim c8Q1.value == "") = false)
    ∧ (fireTimer (addQueryStep ["name"] c8Q3 (addQueryStep ["name"] c8Q2
        (addQueryStep ["name"] c8Q1 {})))).executed
      = [(addQueryStep ["name"] c8Q3 (addQueryStep ["name"] c8Q2
          (addQueryStep ["name"] c8Q1 {}))).queries] :=
  ⟨⟨by decide, by decide⟩,
   (debounce_three_adds_one_execution ["name"] c8Q1 c8Q2 c8Q3
      (by decide) (by decide) (by decide) (by decide) (by decide)
      (by decide)).2.2.1⟩

/-- Quote test for the default-value unquoting regex (double or single
quote). -/
def isQuoteChar (c : Char) : Bool := c.toNat = 34 || c.toNat = 39

/-- The replace of the leading and trailing quote pair in a schema default
value (coreGenerator.ts line 1230). -/
def stripQuotes (s : String) : String :=
  let cs := s.data
  if 2 ≤ cs.length && (isQuoteChar (cs.headD ' ')
      && isQuoteChar (cs.getLastD ' ')) then
    String.mk ((cs.drop 1).dropLast)
  else s

/-- Parsing of one schema default value during create (coreGenerator.ts
lines 1213-1232): substring checks for now/uuid/cuid/true/false in that
order, then numeric parse, then unquoted string.  The clock and the two
random identifier sources are passed in as parameters nowS, uuid and
cuid. -/
def parseDefaultValue (nowS uuid cuid : String) (dv : String) : Val :=
  if strContains dv "now" then Val.str nowS
  else if strContains dv "uuid" then Val.str uuid
  else if strContains dv "cuid" then Val.str cuid
  else if strContains dv "true" then Val.bool true
  else if strContains dv "false" then Val.bool false
  else
    match (jsTrim dv).toInt? with
    | some n => Val.num n
    | none =>
      if jsTrim dv = "" then Val.num 0
      else Val.str (stripQuotes dv)

/-- JavaScript object spread merge of two rows: keys of the first with
values overridden by the second, then the second's new keys, preserving
key order. -/
def objMerge (a b : Row) : Row :=
  a.map (fun p =>
    match b.lookup p.1 with
    | some v => (p.1, v)
    | none => p)
  ++ b.filter (fun q => !(a.any (fun p => p.1 = q.1)))

/-- The gateway interface consumed by the public operations (the Supabase
query, RPC and channel calls, reduced to their data contract): fetch rows
for a query, fetch at most one row by key, count rows for a filter, insert
one row returning the inserted rows, update by key returning the updated
rows, delete by key, and delete by filter. -/
structure Gateway where
  selectRows : QuerySpec → Except String (List Row)
  selectSingle : String → Val → Except String (Option Row)
  countExact : Option WhereFilter → Except String Int
  insertRows : Row → Except String (List Row)
  updateRows : String → Val → Row → Except String (List Row)
  deleteByKey : String → Val → Except String Unit
  deleteWhere : Option WhereFilter → Except String Unit

/-- A gateway on which every call fails with the error e. -/
def gwFail (e : String) : Gateway :=
  { selectRows := fun _ => Except.error e
    selectSingle := fun _ _ => Except.error e
    countExact := fun _ => Except.error e
    insertRows := fun _ => Except.error e
    updateRows := fun _ _ _ => Except.error e
    deleteByKey := fun _ _ => Except.error e
    deleteWhere := fun _ => Except.error e }

/-- Whether a result carries an error. -/
def MRes.isErr {α : Type} : MRes α → Bool
  | MRes.ok _ => false
  | MRes.err _ => true

/-- Shallow embedding of findUnique (coreGenerator.ts lines 779-814),
return value only: the first key of the unique-where object is the primary
key; a missing key or undefined value is reported as an error; a gateway
error is returned, not thrown; on success the data may be null when no
row matched. -/
def findUniqueModel (gw : Gateway) (w : List (String × Val)) :
    MRes (Option Row) :=
  match w with
  | [] => MRes.err "A unique identifier is required"
  | (pk, v) :: _ =>
    if v = Val.undef then MRes.err "A unique identifier is required"
    else
      match gw.selectSingle pk v with
      | Except.error e => MRes.err e
      | Except.ok d => MRes.ok d

/-- Shallow embedding of findFirst (coreGenerator.ts lines 1496-1515):
findMany with take 1; an empty result is reported as the error No records
found. -/
def findFirstModel (cfg : HookConfig) (opts : HookOptions)
    (gw : QuerySpec → Except String (List Row)) (st : ViewState)
    (p : FindManyParams) : MRes Row :=
  match (findManyModel cfg opts gw st { p with take := some 1 }).result with
  | MRes.err e => MRes.err e
  | MRes.ok rows =>
    match rows with
    | [] => MRes.err "No records found"
    | x :: _ => MRes.ok x

/-- Shallow embedding of create (coreGenerator.ts lines 1197-1263), return
value only: apply schema defaults for fields absent from the data, stamp
createdAt/updatedAt, insert through the gateway; a gateway error is
returned; on success the first returned row (or null) is the data. -/
def createModel (cfg : HookConfig) (gw : Gateway)
    (nowS uuid cuid : String) (data : Row) : MRes (Option Row) :=
  let defaults := cfg.defaultValues.foldl
    (fun acc p =>
      if data.any (fun q => q.1 = p.1) then acc
      else acc ++ [(p.1, parseDefaultValue nowS uuid cuid p.2)])
    []
  let item := objMerge (objMerge defaults data)
    ((if cfg.hasCreatedAt then [(cfg.createdAtField, Val.str nowS)]
      else [])
      ++ (if cfg.hasUpdatedAt then [(cfg.updatedAtField, Val.str nowS)]
      else []))
  match gw.insertRows item with
  | Except.error e => MRes.err e
  | Except.ok rows => MRes.ok rows.head?

/-- Shallow embedding of update (coreGenerator.ts lines 1288-1342), return
value only: primary key extraction as in findUnique, updatedAt stamping,
gateway update; errors are returned, never thrown. -/
def updateModel (cfg : HookConfig) (gw : Gateway) (nowS : String)
    (w : List (String × Val)) (data : Row) : MRes (Option Row) :=
  match w with
  | [] => MRes.err "A unique identifier is required"
  | (pk, v) :: _ =>
    if v = Val.undef then MRes.err "A unique identifier is required"
    else
      let item := objMerge data
        (if cfg.hasUpdatedAt then [(cfg.updatedAtField, Val.str nowS)]
         else [])
      match gw.updateRows pk v item with
      | Except.error e => MRes.err e
      | Except.ok rows => MRes.ok rows.head?

/-- Shallow embedding of delete (coreGenerator.ts lines 1357-1407), return
value only: fetch the record first (a fetch error is ignored and the
missing record is then reported as Record not found), delete it, and
return the previously fetched record. -/
def deleteModel (gw : Gateway) (w : List (String × Val)) : MRes Row :=
  match w with
  | [] => MRes.err "A unique identifier is required"
  | (pk, v) :: _ =>
    if v = Val.undef then MRes.err "A unique identifier is required"
    else
      match gw.selectSingle pk v with
      | Except.error _ => MRes.err "Record not found"
      | Except.ok none => MRes.err "Record not found"
      | Except.ok (some found) =>
        match gw.deleteByKey pk v with
        | Except.error e => MRes.err e
        | Except.ok _ => MRes.ok found

/-- The count-and-error pair returned by deleteMany. -/
structure DeleteManyOutcome where
  count : Int
  error : Option String
deriving DecidableEq

/-- Shallow embedding of deleteMany (coreGenerator.ts lines 1426-1476):
read the matching rows first, return count 0 on an empty match, delete
with the same filter, and report the pre-deletion match count; all errors
are carried in the returned pair. -/
def deleteManyModel (_cfg : HookConfig) (gw : Gateway)
    (whereF : Option WhereFilter) : DeleteManyOutcome :=
  match gw.selectRows { filter := whereF } with
  | Except.error e => { count := 0, error := some e }
  | Except.ok rows =>
    if rows.isEmpty then { count := 0, error := none }
    else
      match gw.deleteWhere whereF with
      | Except.error e => { count := 0, error := some e }
      | Except.ok _ => { count := (rows.length : Int), error := none }

/-- Shallow embedding of upsert (coreGenerator.ts lines 1536-1555): look
the row up by its unique key, update when a row was found, otherwise
create; a lookup error is treated like an absent row. -/
def upsertModel (cfg : HookConfig) (gw : Gateway)
    (nowS uuid cuid : String) (w : List (String × Val))
    (updateData createData : Row) : MRes (Option Row) :=
  match findUniqueModel gw w with
  | MRes.ok (some _) => updateModel cfg gw nowS w updateData
  | _ => createModel cfg gw nowS uuid cuid createData

/-- Shallow embedding of the count method (coreGenerator.ts lines
1565-1587): count with the supplied filter or the hook's configured
filter; a gateway error is swallowed and 0 is returned. -/
def countModel (gw : Gateway) (optsWhere : Option WhereFilter)
    (paramsWhere : Option WhereFilter) : Int :=
  let effectiveWhere :=
    match paramsWhere with
    | some w => some w
    | none => optsWhere
  match gw.countExact effectiveWhere with
  | Except.error _ => 0
  | Except.ok n => n

/-- Shallow embedding of refresh (coreGenerator.ts lines 1607-1626),
return value only: while searching with a non-empty query set it returns
the current data; otherwise it re-runs findMany with the call parameters
falling back to the hook options. -/
def refreshModel (cfg : HookConfig) (opts : HookOptions)
    (gw : QuerySpec → Except String (List Row)) (st : ViewState)
    (p : FindManyParams) : MRes (List Row) :=
  if st.isSearching && !st.searchQueries.isEmpty then MRes.ok st.rows
  else
    (findManyModel cfg opts gw st
      { whereF :=
          match p.whereF with
          | some w => some w
          | none => opts.whereF
        orderBy :=
          match p.orderBy with
          | some o => some o
          | none => opts.orderBy
        take :=
          match p.take with
          | some t => some t
          | none => opts.limit
        skip :=
          match p.skip with
          | some s => some s
          | none => opts.offset }).result

theorem findUniqueModel_gwFail_isErr (e : String)
    (w : List (String × Val)) :
    (findUniqueModel (gwFail e) w).isErr = true := by
  match w with
  | [] => rfl
  | (pk, v) :: rest =>
    by_cases hv : v = Val.undef <;>
      simp [findUniqueModel, gwFail, hv, MRes.isErr]

/-- C9 (amended): with a failing gateway every public operation returns
its failure in the returned result and never throws: findUnique, update
and delete report either the gateway error or their own argument error,
findMany, findFirst, create and upsert return the gateway error,
deleteMany returns count 0 with the error, and refresh (outside search)
returns the gateway error; the exception is count, which swallows the
failure and returns the bare number 0, so the consumer cannot observe a
count failure in the returned value. -/
theorem operations_surface_errors_except_count
    (e : String) (cfg : HookConfig) (opts : HookOptions) (st : ViewState)
    (nowS uuid cuid : String) :
    (∀ w : List (String × Val),
      (findUniqueModel (gwFail e) w).isErr = true)
    ∧ (∀ p : FindManyParams,
      (findManyModel cfg opts (gwFail e).selectRows st p).result
        = MRes.err e)
    ∧ (∀ p : FindManyParams,
      findFirstModel cfg opts (gwFail e).selectRows st p = MRes.err e)
    ∧ (∀ d : Row,
      createModel cfg (gwFail e) nowS uuid cuid d = MRes.err e)
    ∧ (∀ w : List (String × Val), ∀ d : Row,
      (updateModel cfg (gwFail e) nowS w d).isErr = true)
    ∧ (∀ w : List (String × Val),
      (deleteModel (gwFail e) w).isErr = true)
    ∧ (∀ wf : Option WhereFilter,
      deleteManyModel cfg (gwFail e) wf = { count := 0, error := some e })
    ∧ (∀ w : List (String × Val), ∀ ud cd : Row,
      upsertModel cfg (gwFail e) nowS uuid cuid w ud cd = MRes.err e)
    ∧ (∀ ow pw : Option WhereFilter, countModel (gwFail e) ow pw = 0)
    ∧ (∀ p : FindManyParams, st.isSearching = false →
      refreshModel cfg opts (gwFail e).selectRows st p = MRes.err e) := by
  refine ⟨findUniqueModel_gwFail_isErr e, ?_, ?_, ?_, ?_, ?_, ?_, ?_,
    ?_, ?_⟩
  · intro p
    simp [findManyModel, gwFail]
  · intro p
    simp [findFirstModel, findManyModel, gwFail]
  · intro d
    simp [createModel, gwFail]
  · intro w d
    match w with
    | [] => rfl
    | (pk, v) :: rest =>
      by_cases hv : v = Val.undef <;>
        simp [updateModel, gwFail, hv, MRes.isErr]
  · intro w
    match w with
    | [] => rfl
    | (pk, v) :: rest =>
      by_cases hv : v = Val.undef <;>
        simp [deleteModel, gwFail, hv, MRes.isErr]
  · intro wf
    simp [deleteManyModel, gwFail]
  · intro w ud cd
    unfold upsertModel
    cases hu : findUniqueModel (gwFail e) w with
    | err e2 => simp [createModel, gwFail]
    | ok d =>
      have h := findUniqueModel_gwFail_isErr e w
      rw [hu] at h
      simp [MRes.isErr] at h
  · intro ow pw
    simp [countModel, gwFail]
  · intro p hs
    simp [refreshModel, hs, findManyModel, gwFail]

/-- A gateway on which every call succeeds trivially, with count 0. -/
def gwZero : Gateway :=
  { selectRows := fun _ => Except.ok []
    selectSingle := fun _ _ => Except.ok none
    countExact := fun _ => Except.ok 0
    insertRows := fun _ => Except.ok []
    updateRows := fun _ _ _ => Except.ok []
    deleteByKey := fun _ _ => Except.ok ()
    deleteWhere := fun _ => Except.ok () }

/-- C9 counterexample: the count operation returns the bare number 0 both
when the gateway fails and when it succeeds with a true count of 0, so
its result carries neither data-with-error distinction nor the failure:
the consumer cannot observe the failure in the returned result. -/
theorem count_failure_indistinguishable_cex :
    countModel (gwFail "boom") none none = 0
    ∧ countModel gwZero none none = 0 := by
  constructor <;> rfl

def c9St : ViewState := { rows := [] }

/-- Witness for operations_surface_errors_except_count at concrete
inputs. -/
theorem operations_surface_errors_except_count_witness :
    (findUniqueModel (gwFail "x") []).isErr = true
    ∧ countModel (gwFail "x") none none = 0
    ∧ c9St.isSearching = false
    ∧ refreshModel c6Cfg {} (gwFail "x").selectRows c9St {} = MRes.err "x" :=
  ⟨(operations_surface_errors_except_count "x" c6Cfg {} c9St "n" "u"
      "c").1 [],
   (operations_surface_errors_except_count "x" c6Cfg {} c9St "n" "u"
      "c").2.2.2.2.2.2.2.2.1 none none,
   rfl,
   (operations_surface_errors_except_count "x" c6Cfg {} c9St "n" "u"
      "c").2.2.2.2.2.2.2.2.2 {} rfl⟩
